import Mathlib

/-!
Verification development for the Freelancer Manager API
(`src/main.py`, `src/schemas.py`).

The HTTP surface of `main.py` is embedded shallowly: JSON bodies are
association lists of string keys and scalar values, the document store is a
record of five collections, and every endpoint is a Lean function from a
request body / query parameters and a store to a response and a store.
Pydantic request validation is embedded as parsers from bodies into the DTO
structures declared in `main.py`; the constrained models of `schemas.py`
are embedded as separate parsers carrying the declared field constraints.
JSON numbers are modelled as rationals.

The module `database.py` is imported by `main.py` but is not part of the
source tree; its two functions are modelled from the spec (see the doc
comments on `create_document` and `get_documents`).
-/

namespace Freelancer

/-- A scalar JSON-ish value as it appears in request bodies and stored
documents. `oid` is the store-internal identifier value (MongoDB ObjectId);
its rendered string form is produced by `pyStr`. -/
inductive Value where
  | vstr (s : String)
  | vnum (q : Rat)
  | vnull
  | oid (n : Nat)
deriving DecidableEq, Repr

/-- A document / JSON object: an association list of field names to values,
with the Python-dict convention that keys are unique. -/
abbrev Doc := List (String × Value)

/-- Dictionary lookup: the value at key `k`, if present. -/
def Doc.get : Doc → String → Option Value
  | [], _ => none
  | kv :: rest, k => if kv.1 == k then some kv.2 else Doc.get rest k

/-- Dictionary assignment `d[k] = v`: replaces the value at an existing key
in place, otherwise appends the new key at the end (Python dict order). -/
def Doc.set : Doc → String → Value → Doc
  | [], k, v => [(k, v)]
  | kv :: rest, k, v => if kv.1 == k then (k, v) :: rest else kv :: Doc.set rest k v

/-- Dictionary `d.pop(k)` minus the returned value: the document without the
key `k`. -/
def Doc.eraseKey (d : Doc) (k : String) : Doc :=
  d.filter (fun kv => !(kv.1 == k))

/-- Python `str(...)` on the modelled values. On `oid` it stands for the
hex rendering of an ObjectId; the model renders the identifier counter. -/
def pyStr : Value → String
  | Value.vstr s => s
  | Value.vnum q => toString q
  | Value.vnull => "None"
  | Value.oid n => toString n

/-- The document store: one collection per record kind (named after the
kind in lowercase), plus the counter from which the next store-assigned
identifier is drawn. -/
structure Store where
  client : List Doc
  project : List Doc
  timelog : List Doc
  invoice : List Doc
  payment : List Doc
  nextId : Nat
deriving DecidableEq, Repr

/-- The store with every collection empty. -/
def Store.empty : Store := ⟨[], [], [], [], [], 0⟩

/-- The collection named `kind`. -/
def Store.getColl (s : Store) (kind : String) : List Doc :=
  if kind == "client" then s.client
  else if kind == "project" then s.project
  else if kind == "timelog" then s.timelog
  else if kind == "invoice" then s.invoice
  else if kind == "payment" then s.payment
  else []

/-- The store with the collection named `kind` replaced by `c`. -/
def Store.setColl (s : Store) (kind : String) (c : List Doc) : Store :=
  if kind == "client" then { s with client := c }
  else if kind == "project" then { s with project := c }
  else if kind == "timelog" then { s with timelog := c }
  else if kind == "invoice" then { s with invoice := c }
  else if kind == "payment" then { s with payment := c }
  else s

/-- Modelled from the spec: `create_document` of the missing `database.py`
("insert(kind, record) -> identifier": assigns and returns a newly
generated unique identifier; side effect: one new record appears in that
kind's collection, carrying the identifier in its `_id` field). -/
def create_document (kind : String) (data : Doc) (s : Store) : String × Store :=
  let newId := s.nextId
  let doc := Doc.set data "_id" (Value.oid newId)
  let s1 := Store.setColl s kind (s.getColl kind ++ [doc])
  (toString newId, { s1 with nextId := newId + 1 })

/-- A document satisfies an AND-combined exact-match filter. -/
def matchesFilter (d : Doc) (filt : List (String × Value)) : Bool :=
  filt.all (fun kv => Doc.get d kv.1 == some kv.2)

/-- Modelled from the spec: `get_documents` of the missing `database.py`
("list(kind, filter?) -> sequence of records": every record of the kind's
collection matching the AND-combined exact-match filter, eagerly
materialized; "Retrieval never mutates state", so the store comes back
unchanged). -/
def get_documents (kind : String) (filt : List (String × Value)) (s : Store) :
    List Doc × Store :=
  ((s.getColl kind).filter (fun d => matchesFilter d filt), s)

/-! ### Pydantic field extraction

The request-validation semantics of the DTO class declarations in
`main.py`. A body field of declared type `str` must be a string value, a
field of type `float` a number; `Optional[T] = dflt` fields default to
`dflt` when absent and to `None` when explicitly null. These DTOs declare
no range, enum or date-format constraints, so none are checked here (the
constrained models of `schemas.py` are embedded further down). -/

/-- Extraction for a required `str` field. -/
def reqStr (body : Doc) (k : String) : Except String String :=
  match Doc.get body k with
  | some (Value.vstr s) => .ok s
  | some _ => .error (k ++ ": input should be a valid string")
  | none => .error (k ++ ": field required")

/-- Extraction for a required `float` field (JSON numbers only; the model
does not reproduce pydantic's lax string-to-float coercion, which no claim
exercises). -/
def reqFloat (body : Doc) (k : String) : Except String Rat :=
  match Doc.get body k with
  | some (Value.vnum q) => .ok q
  | some _ => .error (k ++ ": input should be a valid number")
  | none => .error (k ++ ": field required")

/-- Extraction for an `Optional[str]` field with default `dflt`. -/
def optStr (body : Doc) (k : String) (dflt : Option String) :
    Except String (Option String) :=
  match Doc.get body k with
  | none => .ok dflt
  | some Value.vnull => .ok none
  | some (Value.vstr s) => .ok (some s)
  | some _ => .error (k ++ ": input should be a valid string")

/-- Extraction for an `Optional[float]` field with default `None`. -/
def optFloat (body : Doc) (k : String) : Except String (Option Rat) :=
  match Doc.get body k with
  | none => .ok none
  | some Value.vnull => .ok none
  | some (Value.vnum q) => .ok (some q)
  | some _ => .error (k ++ ": input should be a valid number")

/-- `Option String` rendered back into a dumped document value. -/
def optV : Option String → Value
  | none => Value.vnull
  | some s => Value.vstr s

/-- `Option Rat` rendered back into a dumped document value. -/
def optNumV : Option Rat → Value
  | none => Value.vnull
  | some q => Value.vnum q

/-! ### The minimal DTOs of `main.py` (lines 30-66) and their parsers -/

/-- `ClientCreate` (main.py lines 30-34). -/
structure ClientCreate where
  name : String
  email : Option String
  phone : Option String
  notes : Option String
deriving DecidableEq, Repr

/-- Pydantic validation of a request body against `ClientCreate`. -/
def parseClientCreate (body : Doc) : Except String ClientCreate := do
  let name ← reqStr body "name"
  let email ← optStr body "email" none
  let phone ← optStr body "phone" none
  let notes ← optStr body "notes" none
  pure { name, email, phone, notes }

/-- `payload.model_dump()` for `ClientCreate`. -/
def ClientCreate.model_dump (p : ClientCreate) : Doc :=
  [("name", Value.vstr p.name), ("email", optV p.email),
   ("phone", optV p.phone), ("notes", optV p.notes)]

/-- `ProjectCreate` (main.py lines 36-41). Note: `hourly_rate` is a plain
`Optional[float]` with no bound, and `status` a plain `Optional[str]`. -/
structure ProjectCreate where
  name : String
  client_id : Option String
  hourly_rate : Option Rat
  status : Option String
  notes : Option String
deriving DecidableEq, Repr

/-- Pydantic validation of a request body against `ProjectCreate`. -/
def parseProjectCreate (body : Doc) : Except String ProjectCreate := do
  let name ← reqStr body "name"
  let client_id ← optStr body "client_id" none
  let hourly_rate ← optFloat body "hourly_rate"
  let status ← optStr body "status" (some "active")
  let notes ← optStr body "notes" none
  pure { name, client_id, hourly_rate, status, notes }

/-- `payload.model_dump()` for `ProjectCreate`. -/
def ProjectCreate.model_dump (p : ProjectCreate) : Doc :=
  [("name", Value.vstr p.name), ("client_id", optV p.client_id),
   ("hourly_rate", optNumV p.hourly_rate), ("status", optV p.status),
   ("notes", optV p.notes)]

/-- `TimeLogCreate` (main.py lines 43-49). Note: `date` is a plain `str`
and `hours` a plain `float` with no positivity bound. -/
structure TimeLogCreate where
  project_id : String
  client_id : Option String
  date : String
  hours : Rat
  description : Option String
  hourly_rate : Option Rat
deriving DecidableEq, Repr

/-- Pydantic validation of a request body against `TimeLogCreate`. -/
def parseTimeLogCreate (body : Doc) : Except String TimeLogCreate := do
  let project_id ← reqStr body "project_id"
  let client_id ← optStr body "client_id" none
  let date ← reqStr body "date"
  let hours ← reqFloat body "hours"
  let description ← optStr body "description" none
  let hourly_rate ← optFloat body "hourly_rate"
  pure { project_id, client_id, date, hours, description, hourly_rate }

/-- `payload.model_dump()` for `TimeLogCreate`. -/
def TimeLogCreate.model_dump (p : TimeLogCreate) : Doc :=
  [("project_id", Value.vstr p.project_id), ("client_id", optV p.client_id),
   ("date", Value.vstr p.date), ("hours", Value.vnum p.hours),
   ("description", optV p.description), ("hourly_rate", optNumV p.hourly_rate)]

/-- `InvoiceCreate` (main.py lines 51-58). Note: `status` is a plain
`Optional[str]`, not restricted to an allowed set, and `amount` a plain
`float`. -/
structure InvoiceCreate where
  client_id : String
  project_id : Option String
  number : Option String
  amount : Rat
  due_date : Option String
  status : Option String
  notes : Option String
deriving DecidableEq, Repr

/-- Pydantic validation of a request body against `InvoiceCreate`. -/
def parseInvoiceCreate (body : Doc) : Except String InvoiceCreate := do
  let client_id ← reqStr body "client_id"
  let project_id ← optStr body "project_id" none
  let number ← optStr body "number" none
  let amount ← reqFloat body "amount"
  let due_date ← optStr body "due_date" none
  let status ← optStr body "status" (some "draft")
  let notes ← optStr body "notes" none
  pure { client_id, project_id, number, amount, due_date, status, notes }

/-- `payload.model_dump()` for `InvoiceCreate`. -/
def InvoiceCreate.model_dump (p : InvoiceCreate) : Doc :=
  [("client_id", Value.vstr p.client_id), ("project_id", optV p.project_id),
   ("number", optV p.number), ("amount", Value.vnum p.amount),
   ("due_date", optV p.due_date), ("status", optV p.status),
   ("notes", optV p.notes)]

/-- `PaymentCreate` (main.py lines 60-66). Note: `date` is a plain `str`. -/
structure PaymentCreate where
  invoice_id : Option String
  client_id : Option String
  amount : Rat
  method : Option String
  date : String
  notes : Option String
deriving DecidableEq, Repr

/-- Pydantic validation of a request body against `PaymentCreate`. -/
def parsePaymentCreate (body : Doc) : Except String PaymentCreate := do
  let invoice_id ← optStr body "invoice_id" none
  let client_id ← optStr body "client_id" none
  let amount ← reqFloat body "amount"
  let method ← optStr body "method" none
  let date ← reqStr body "date"
  let notes ← optStr body "notes" none
  pure { invoice_id, client_id, amount, method, date, notes }

/-- `payload.model_dump()` for `PaymentCreate`. -/
def PaymentCreate.model_dump (p : PaymentCreate) : Doc :=
  [("invoice_id", optV p.invoice_id), ("client_id", optV p.client_id),
   ("amount", Value.vnum p.amount), ("method", optV p.method),
   ("date", Value.vstr p.date), ("notes", optV p.notes)]

/-! ### The HTTP endpoints of `main.py`

Each endpoint takes its request data and the store and returns the
response paired with the resulting store. A `.error` response stands for
an HTTP client error (pydantic 422, or a raised `KeyError` surfacing as a
server error). -/

/-- The list-endpoint loop `i["id"] = str(i.pop("_id"))` on one item:
remove the raw `_id` field and attach its rendered string as `id`.
`dict.pop` without a default raises when the key is absent. -/
def renameId (d : Doc) : Except String Doc :=
  match Doc.get d "_id" with
  | some v => .ok (Doc.set (d.eraseKey "_id") "id" (Value.vstr (pyStr v)))
  | none => .error "KeyError: _id"

/-- The list-endpoint loop `for i in items: i["id"] = str(i.pop("_id"))`
over the whole result, stopping at the first raised error. -/
def renameAll : List Doc → Except String (List Doc)
  | [] => .ok []
  | d :: rest =>
    match renameId d with
    | .error e => .error e
    | .ok d1 =>
      match renameAll rest with
      | .error e => .error e
      | .ok rest1 => .ok (d1 :: rest1)

/-- POST `/api/clients` (`create_client`, main.py lines 75-78). -/
def create_client (body : Doc) (s : Store) : Except String String × Store :=
  match parseClientCreate body with
  | .error e => (.error e, s)
  | .ok p =>
    let (doc_id, s1) := create_document "client" p.model_dump s
    (.ok doc_id, s1)

/-- GET `/api/clients` (`list_clients`, main.py lines 80-85). -/
def list_clients (s : Store) : Except String (List Doc) × Store :=
  let (items, s1) := get_documents "client" [] s
  (renameAll items, s1)

/-- POST `/api/projects` (`create_project`, main.py lines 89-96; the
`if data.get("client_id"): pass` branch is a no-op). -/
def create_project (body : Doc) (s : Store) : Except String String × Store :=
  match parseProjectCreate body with
  | .error e => (.error e, s)
  | .ok p =>
    let (doc_id, s1) := create_document "project" p.model_dump s
    (.ok doc_id, s1)

/-- GET `/api/projects?client_id=` (`list_projects`, main.py lines 98-104).
The filter is built from `client_id` only when that string is truthy,
i.e. present and non-empty. -/
def list_projects (client_id : Option String) (s : Store) :
    Except String (List Doc) × Store :=
  let filt : List (String × Value) :=
    match client_id with
    | some c => if c == "" then [] else [("client_id", Value.vstr c)]
    | none => []
  let (items, s1) := get_documents "project" filt s
  (renameAll items, s1)

/-- POST `/api/timelogs` (`create_timelog`, main.py lines 108-112). -/
def create_timelog (body : Doc) (s : Store) : Except String String × Store :=
  match parseTimeLogCreate body with
  | .error e => (.error e, s)
  | .ok p =>
    let (doc_id, s1) := create_document "timelog" p.model_dump s
    (.ok doc_id, s1)

/-- GET `/api/timelogs?project_id=&client_id=` (`list_timelogs`, main.py
lines 114-124). Each filter entry is added only when its parameter is
truthy. -/
def list_timelogs (project_id client_id : Option String) (s : Store) :
    Except String (List Doc) × Store :=
  let filt0 : List (String × Value) :=
    match project_id with
    | some c => if c == "" then [] else [("project_id", Value.vstr c)]
    | none => []
  let filt : List (String × Value) :=
    match client_id with
    | some c => if c == "" then filt0 else filt0 ++ [("client_id", Value.vstr c)]
    | none => filt0
  let (items, s1) := get_documents "timelog" filt s
  (renameAll items, s1)

/-- POST `/api/invoices` (`create_invoice`, main.py lines 128-132). -/
def create_invoice (body : Doc) (s : Store) : Except String String × Store :=
  match parseInvoiceCreate body with
  | .error e => (.error e, s)
  | .ok p =>
    let (doc_id, s1) := create_document "invoice" p.model_dump s
    (.ok doc_id, s1)

/-- GET `/api/invoices?client_id=&status=` (`list_invoices`, main.py lines
134-144). -/
def list_invoices (client_id status : Option String) (s : Store) :
    Except String (List Doc) × Store :=
  let filt0 : List (String × Value) :=
    match client_id with
    | some c => if c == "" then [] else [("client_id", Value.vstr c)]
    | none => []
  let filt : List (String × Value) :=
    match status with
    | some c => if c == "" then filt0 else filt0 ++ [("status", Value.vstr c)]
    | none => filt0
  let (items, s1) := get_documents "invoice" filt s
  (renameAll items, s1)

/-- POST `/api/payments` (`create_payment`, main.py lines 148-152). -/
def create_payment (body : Doc) (s : Store) : Except String String × Store :=
  match parsePaymentCreate body with
  | .error e => (.error e, s)
  | .ok p =>
    let (doc_id, s1) := create_document "payment" p.model_dump s
    (.ok doc_id, s1)

/-- GET `/api/payments?client_id=&invoice_id=` (`list_payments`, main.py
lines 154-164). -/
def list_payments (client_id invoice_id : Option String) (s : Store) :
    Except String (List Doc) × Store :=
  let filt0 : List (String × Value) :=
    match client_id with
    | some c => if c == "" then [] else [("client_id", Value.vstr c)]
    | none => []
  let filt : List (String × Value) :=
    match invoice_id with
    | some c => if c == "" then filt0 else filt0 ++ [("invoice_id", Value.vstr c)]
    | none => filt0
  let (items, s1) := get_documents "payment" filt s
  (renameAll items, s1)

/-! ### GET `/api/metrics` (`get_metrics`, main.py lines 168-189) -/

/-- Python `float(v)` on a stored value. Conversion of a number succeeds;
`None` and the other non-numeric values raise (the model does not
reproduce `float` on numeric strings, which no stored summed field and no
claim exercises). -/
def pyFloat : Value → Except String Rat
  | Value.vnum q => .ok q
  | _ => .error "float: conversion failed"

/-- `sum(float(t.get(k, 0)) for t in docs)`: the sum over `docs` of field
`k` converted to float, an absent field defaulting to `0`. -/
def sumField : List Doc → String → Except String Rat
  | [], _ => .ok 0
  | d :: rest, k =>
    match pyFloat ((Doc.get d k).getD (Value.vnum 0)) with
    | .error e => .error e
    | .ok x =>
      match sumField rest k with
      | .error e => .error e
      | .ok t => .ok (x + t)

/-- The response shape of GET `/api/metrics`. -/
structure Metrics where
  clients : Nat
  projects : Nat
  total_hours : Rat
  invoice_total : Rat
  payment_total : Rat
  outstanding : Rat
deriving DecidableEq, Repr

/-- GET `/api/metrics`: counts clients and projects, sums timelog hours,
invoice amounts and payment amounts, and reports
`outstanding = invoice_total - payment_total`. -/
def get_metrics (s : Store) : Except String Metrics × Store :=
  let (clientDocs, s1) := get_documents "client" [] s
  let (projectDocs, s2) := get_documents "project" [] s1
  let (timelogs, s3) := get_documents "timelog" [] s2
  let (invoices, s4) := get_documents "invoice" [] s3
  let (payments, s5) := get_documents "payment" [] s4
  let res : Except String Metrics :=
    match sumField timelogs "hours" with
    | .error e => .error e
    | .ok total_hours =>
      match sumField invoices "amount" with
      | .error e => .error e
      | .ok invoice_total =>
        match sumField payments "amount" with
        | .error e => .error e
        | .ok payment_total =>
          .ok { clients := clientDocs.length, projects := projectDocs.length,
                total_hours := total_hours, invoice_total := invoice_total,
                payment_total := payment_total,
                outstanding := invoice_total - payment_total }
  (res, s5)

/-! ### The constrained collection models of `schemas.py`

`schemas.py` declares, for each collection, the pydantic model with the
field constraints the data is meant to satisfy (`ge=0`, `gt=0`, `Literal`
status sets, `date`-typed fields). `main.py` does not use these models on
its create endpoints; they are embedded here as parsers so that theorems
can compare what an endpoint accepts against what the collection's schema
declares. -/

namespace Schemas

/-- Gregorian leap year, as Python's `datetime.date` uses it. -/
def isLeap (y : Nat) : Bool :=
  (y % 4 == 0 && y % 100 != 0) || y % 400 == 0

/-- Number of days in month `m` of year `y`. -/
def daysInMonth (y m : Nat) : Nat :=
  if m == 2 then (if isLeap y then 29 else 28)
  else if m == 4 || m == 6 || m == 9 || m == 11 then 30
  else 31

/-- Split a character list on the `-` separator. -/
def splitDash : List Char → List (List Char)
  | [] => [[]]
  | c :: rest =>
    match splitDash rest, c == '-' with
    | r, true => [] :: r
    | [], false => [[c]]
    | p :: ps, false => (c :: p) :: ps

/-- Read a nonempty all-digit character list as a decimal number. -/
def digitsToNat (cs : List Char) : Option Nat :=
  if cs.isEmpty then none
  else if cs.all Char.isDigit then
    some (cs.foldl (fun a c => a * 10 + (c.toNat - 48)) 0)
  else none

/-- Parse an ISO `YYYY-MM-DD` calendar-date string into (year, month,
day), rejecting anything that is not a valid calendar date; the semantics
of a pydantic `date` field applied to a JSON string. -/
def parseISODate (s : String) : Option (Nat × Nat × Nat) :=
  match splitDash s.data with
  | [ys, ms, ds] =>
    if ys.length == 4 && ms.length == 2 && ds.length == 2 then
      match digitsToNat ys, digitsToNat ms, digitsToNat ds with
      | some y, some m, some d =>
        if 1 ≤ m && m ≤ 12 && 1 ≤ d && d ≤ daysInMonth y m then
          some (y, m, d)
        else none
      | _, _, _ => none
    else none
  | _ => none

/-- Whether a string is a valid ISO calendar date. -/
def isValidDate (s : String) : Bool :=
  (parseISODate s).isSome

/-- Extraction for a required `date` field. -/
def reqDate (body : Doc) (k : String) : Except String (Nat × Nat × Nat) :=
  match Doc.get body k with
  | some (Value.vstr s) =>
    match parseISODate s with
    | some d => .ok d
    | none => .error (k ++ ": input should be a valid date")
  | some _ => .error (k ++ ": input should be a valid date")
  | none => .error (k ++ ": field required")

/-- Extraction for an `Optional[date]` field with default `None`. -/
def optDate (body : Doc) (k : String) : Except String (Option (Nat × Nat × Nat)) :=
  match Doc.get body k with
  | none => .ok none
  | some Value.vnull => .ok none
  | some (Value.vstr s) =>
    match parseISODate s with
    | some d => .ok (some d)
    | none => .error (k ++ ": input should be a valid date")
  | some _ => .error (k ++ ": input should be a valid date")

/-- Constraint check for `Field(..., ge=0)` on an optional float. -/
def checkOptGe0 (k : String) (o : Option Rat) : Except String (Option Rat) :=
  match o with
  | some q => if q < 0 then .error (k ++ ": input should be >= 0") else .ok (some q)
  | none => .ok none

/-- Constraint check for `Field(..., ge=0)` on a required float. -/
def checkGe0 (k : String) (q : Rat) : Except String Rat :=
  if q < 0 then .error (k ++ ": input should be >= 0") else .ok q

/-- Constraint check for `Field(..., gt=0)` on a required float. -/
def checkGt0 (k : String) (q : Rat) : Except String Rat :=
  if 0 < q then .ok q else .error (k ++ ": input should be > 0")

/-- Extraction for a `Literal[...]` status field with default `dflt`:
absent means the default, anything outside the allowed set is rejected
(including null, since the field is not `Optional`). -/
def reqLiteral (body : Doc) (k : String) (allowed : List String)
    (dflt : String) : Except String String :=
  match Doc.get body k with
  | none => .ok dflt
  | some (Value.vstr s) =>
    if allowed.contains s then .ok s
    else .error (k ++ ": input should be one of the allowed values")
  | some _ => .error (k ++ ": input should be one of the allowed values")

/-- `Project` (schemas.py lines 23-28): `hourly_rate` non-negative,
`status` one of planned / active / paused / completed. -/
structure Project where
  name : String
  client_id : Option String
  hourly_rate : Option Rat
  status : String
  notes : Option String
deriving DecidableEq, Repr

/-- Validation of a body against the `Project` schema. -/
def parseProject (body : Doc) : Except String Project := do
  let name ← reqStr body "name"
  let client_id ← optStr body "client_id" none
  let hourly_rate ← checkOptGe0 "hourly_rate" (← optFloat body "hourly_rate")
  let status ← reqLiteral body "status" ["planned", "active", "paused", "completed"] "active"
  let notes ← optStr body "notes" none
  pure { name, client_id, hourly_rate, status, notes }

/-- `TimeLog` (schemas.py lines 30-36): `date` a calendar date, `hours`
strictly positive, `hourly_rate` non-negative. -/
structure TimeLog where
  project_id : String
  client_id : Option String
  date : Nat × Nat × Nat
  hours : Rat
  description : Option String
  hourly_rate : Option Rat
deriving DecidableEq, Repr

/-- Validation of a body against the `TimeLog` schema. -/
def parseTimeLog (body : Doc) : Except String TimeLog := do
  let project_id ← reqStr body "project_id"
  let client_id ← optStr body "client_id" none
  let date ← reqDate body "date"
  let hours ← checkGt0 "hours" (← reqFloat body "hours")
  let description ← optStr body "description" none
  let hourly_rate ← checkOptGe0 "hourly_rate" (← optFloat body "hourly_rate")
  pure { project_id, client_id, date, hours, description, hourly_rate }

/-- `Invoice` (schemas.py lines 38-45): `amount` non-negative, `due_date`
a calendar date if present, `status` one of draft / sent / paid /
overdue. -/
structure Invoice where
  client_id : String
  project_id : Option String
  number : Option String
  amount : Rat
  due_date : Option (Nat × Nat × Nat)
  status : String
  notes : Option String
deriving DecidableEq, Repr

/-- Validation of a body against the `Invoice` schema. -/
def parseInvoice (body : Doc) : Except String Invoice := do
  let client_id ← reqStr body "client_id"
  let project_id ← optStr body "project_id" none
  let number ← optStr body "number" none
  let amount ← checkGe0 "amount" (← reqFloat body "amount")
  let due_date ← optDate body "due_date"
  let status ← reqLiteral body "status" ["draft", "sent", "paid", "overdue"] "draft"
  let notes ← optStr body "notes" none
  pure { client_id, project_id, number, amount, due_date, status, notes }

/-- `Payment` (schemas.py lines 47-53): `amount` non-negative, `date` a
calendar date. -/
structure Payment where
  invoice_id : Option String
  client_id : Option String
  amount : Rat
  method : Option String
  date : Nat × Nat × Nat
  notes : Option String
deriving DecidableEq, Repr

/-- Validation of a body against the `Payment` schema. -/
def parsePayment (body : Doc) : Except String Payment := do
  let invoice_id ← optStr body "invoice_id" none
  let client_id ← optStr body "client_id" none
  let amount ← checkGe0 "amount" (← reqFloat body "amount")
  let method ← optStr body "method" none
  let date ← reqDate body "date"
  let notes ← optStr body "notes" none
  pure { invoice_id, client_id, amount, method, date, notes }

end Schemas

/-- Whether an `Except` result is a success. -/
def isOk {ε α : Type} : Except ε α → Bool
  | .ok _ => true
  | .error _ => false

/-! ### Helper lemmas -/

/-- The collection named "client" is the client collection. -/
theorem Store.getColl_client (s : Store) : s.getColl "client" = s.client := rfl

/-- The collection named "project" is the project collection. -/
theorem Store.getColl_project (s : Store) : s.getColl "project" = s.project := rfl

/-- The collection named "timelog" is the timelog collection. -/
theorem Store.getColl_timelog (s : Store) : s.getColl "timelog" = s.timelog := rfl

/-- The collection named "invoice" is the invoice collection. -/
theorem Store.getColl_invoice (s : Store) : s.getColl "invoice" = s.invoice := rfl

/-- The collection named "payment" is the payment collection. -/
theorem Store.getColl_payment (s : Store) : s.getColl "payment" = s.payment := rfl

/-- The empty filter matches every document. -/
theorem filter_matches_nil (l : List Doc) :
    (l.filter fun d => matchesFilter d []) = l := by
  simp [matchesFilter]

/-- After erasing a key, looking it up yields nothing. -/
theorem Doc.get_eraseKey (d : Doc) (k : String) :
    Doc.get (d.eraseKey k) k = none := by
  induction d with
  | nil => rfl
  | cons kv rest ih =>
    cases hkv : (kv.1 == k) <;>
      simp [Doc.eraseKey, List.filter, hkv, Doc.get] at ih ⊢ <;>
      simpa [Doc.eraseKey] using ih

/-- Setting a key then looking it up yields the new value. -/
theorem Doc.get_set_same (d : Doc) (k : String) (v : Value) :
    Doc.get (Doc.set d k v) k = some v := by
  induction d with
  | nil => simp [Doc.set, Doc.get]
  | cons kv rest ih =>
    cases hkv : (kv.1 == k) <;> simp [Doc.set, hkv, Doc.get, ih]

/-- Setting one key leaves lookups of a different key unchanged. -/
theorem Doc.get_set_of_ne (d : Doc) {k k' : String} (v : Value) (h : k ≠ k') :
    Doc.get (Doc.set d k v) k' = Doc.get d k' := by
  induction d with
  | nil => simp [Doc.set, Doc.get, h]
  | cons kv rest ih =>
    cases hkv : (kv.1 == k)
    · simp [Doc.set, hkv, Doc.get, ih]
    · have hk : kv.1 = k := eq_of_beq hkv
      have hkv' : (kv.1 == k') = false := by
        subst hk
        exact beq_eq_false_iff_ne.mpr h
      simp [Doc.set, hkv, Doc.get, hkv', h]

/-- A successfully renamed document exposes no raw `_id` and carries a
string `id`. -/
theorem renameId_shape {d d' : Doc} (h : renameId d = .ok d') :
    Doc.get d' "_id" = none ∧ ∃ sv, Doc.get d' "id" = some (Value.vstr sv) := by
  unfold renameId at h
  cases hg : Doc.get d "_id" with
  | none => rw [hg] at h; exact absurd h (by simp)
  | some v =>
    rw [hg] at h
    have hd : d' = Doc.set (d.eraseKey "_id") "id" (Value.vstr (pyStr v)) :=
      (Except.ok.inj h).symm
    subst hd
    constructor
    · rw [Doc.get_set_of_ne _ _ (by decide), Doc.get_eraseKey]
    · exact ⟨pyStr v, Doc.get_set_same _ _ _⟩

/-- Every document in a successful `renameAll` result comes from a
successful `renameId`. -/
theorem renameAll_mem {items out : List Doc} (h : renameAll items = .ok out) :
    ∀ i ∈ out, ∃ d, renameId d = .ok i := by
  induction items generalizing out with
  | nil =>
    simp only [renameAll] at h
    cases h
    intro i hi
    exact absurd hi (by simp)
  | cons d rest ih =>
    cases hr : renameId d with
    | error e =>
      simp only [renameAll, hr] at h
      exact Except.noConfusion h
    | ok d1 =>
      cases hrest : renameAll rest with
      | error e =>
        simp only [renameAll, hr, hrest] at h
        exact Except.noConfusion h
      | ok rest1 =>
        simp only [renameAll, hr, hrest, Except.ok.injEq] at h
        subst h
        intro i hi
        rcases List.mem_cons.mp hi with hi1 | hi2
        · exact ⟨d, by rw [hr, hi1]⟩
        · exact ih hrest i hi2

/-! ### Claim theorems -/

/-- Claim C2 (code bug exhibit): a create-Project request with
`hourly_rate = -5` is accepted by POST `/api/projects` — the endpoint
returns an id and persists the record — even though the `Project` schema
of `schemas.py` declares `hourly_rate` non-negative and rejects the same
body. -/
theorem negative_hourly_rate_accepted :
    (create_project [("name", Value.vstr "Site"),
        ("hourly_rate", Value.vnum (-5))] Store.empty).fst = .ok "0"
    ∧ (create_project [("name", Value.vstr "Site"),
        ("hourly_rate", Value.vnum (-5))] Store.empty).snd.project
      = [[("name", Value.vstr "Site"), ("client_id", Value.vnull),
          ("hourly_rate", Value.vnum (-5)), ("status", Value.vstr "active"),
          ("notes", Value.vnull), ("_id", Value.oid 0)]]
    ∧ Schemas.parseProject [("name", Value.vstr "Site"),
        ("hourly_rate", Value.vnum (-5))]
      = .error "hourly_rate: input should be >= 0" :=
  ⟨rfl, rfl, rfl⟩

/-- Claim C3 (code bug exhibit): a create-TimeLog request with `hours = 0`
is accepted by POST `/api/timelogs` — the endpoint returns an id and
persists the record — even though the `TimeLog` schema of `schemas.py`
declares `hours` strictly positive and rejects the same body; a request
with `hours = 2.5` succeeds as the claim says. -/
theorem zero_hours_accepted :
    (create_timelog [("project_id", Value.vstr "p1"),
        ("date", Value.vstr "2024-01-15"), ("hours", Value.vnum 0)]
        Store.empty).fst = .ok "0"
    ∧ (create_timelog [("project_id", Value.vstr "p1"),
        ("date", Value.vstr "2024-01-15"), ("hours", Value.vnum 0)]
        Store.empty).snd.timelog.length = 1
    ∧ Schemas.parseTimeLog [("project_id", Value.vstr "p1"),
        ("date", Value.vstr "2024-01-15"), ("hours", Value.vnum 0)]
      = .error "hours: input should be > 0"
    ∧ (create_timelog [("project_id", Value.vstr "p1"),
        ("date", Value.vstr "2024-01-15"), ("hours", Value.vnum 2.5)]
        Store.empty).fst = .ok "0" :=
  ⟨rfl, rfl, rfl, rfl⟩

/-- Claim C4 (code bug exhibit): a create-Invoice request with
`status = "cancelled"` is accepted by POST `/api/invoices` — the endpoint
returns an id and persists the record — even though the `Invoice` schema
of `schemas.py` restricts `status` to draft / sent / paid / overdue and
rejects the same body; a request with `status = "sent"` succeeds as the
claim says. -/
theorem invalid_status_accepted :
    (create_invoice [("client_id", Value.vstr "c1"),
        ("amount", Value.vnum 100), ("status", Value.vstr "cancelled")]
        Store.empty).fst = .ok "0"
    ∧ (create_invoice [("client_id", Value.vstr "c1"),
        ("amount", Value.vnum 100), ("status", Value.vstr "cancelled")]
        Store.empty).snd.invoice.length = 1
    ∧ Schemas.parseInvoice [("client_id", Value.vstr "c1"),
        ("amount", Value.vnum 100), ("status", Value.vstr "cancelled")]
      = .error "status: input should be one of the allowed values"
    ∧ (create_invoice [("client_id", Value.vstr "c1"),
        ("amount", Value.vnum 100), ("status", Value.vstr "sent")]
        Store.empty).fst = .ok "0" :=
  ⟨rfl, rfl, rfl, rfl⟩

/-- Claim C5 (code bug exhibit): a create request whose date field is not
a valid ISO calendar date is accepted and persisted — shown for a TimeLog
with `date = "2024-13-05"` and a Payment with `date = "not-a-date"` —
even though the schemas of `schemas.py` type those fields as calendar
dates and reject both bodies. -/
theorem invalid_date_accepted :
    Schemas.isValidDate "2024-13-05" = false
    ∧ (create_timelog [("project_id", Value.vstr "p1"),
        ("date", Value.vstr "2024-13-05"), ("hours", Value.vnum 1)]
        Store.empty).fst = .ok "0"
    ∧ (create_timelog [("project_id", Value.vstr "p1"),
        ("date", Value.vstr "2024-13-05"), ("hours", Value.vnum 1)]
        Store.empty).snd.timelog.length = 1
    ∧ Schemas.parseTimeLog [("project_id", Value.vstr "p1"),
        ("date", Value.vstr "2024-13-05"), ("hours", Value.vnum 1)]
      = .error "date: input should be a valid date"
    ∧ Schemas.isValidDate "not-a-date" = false
    ∧ (create_payment [("amount", Value.vnum 50),
        ("date", Value.vstr "not-a-date")] Store.empty).fst = .ok "0"
    ∧ (create_payment [("amount", Value.vnum 50),
        ("date", Value.vstr "not-a-date")] Store.empty).snd.payment.length = 1
    ∧ Schemas.parsePayment [("amount", Value.vnum 50),
        ("date", Value.vstr "not-a-date")]
      = .error "date: input should be a valid date" :=
  ⟨rfl, rfl, rfl, rfl, rfl, rfl, rfl, rfl⟩

/-- Claim C1: whenever the three summations succeed, GET `/api/metrics`
reports `invoice_total` as the sum of the invoice amounts, `payment_total`
as the sum of the payment amounts, and
`outstanding = invoice_total - payment_total` (with the client and project
counts and the hours total as computed). -/
theorem metrics_totals (s : Store) (H I P : Rat)
    (hH : sumField s.timelog "hours" = .ok H)
    (hI : sumField s.invoice "amount" = .ok I)
    (hP : sumField s.payment "amount" = .ok P) :
    (get_metrics s).fst
      = .ok { clients := s.client.length, projects := s.project.length,
              total_hours := H, invoice_total := I, payment_total := P,
              outstanding := I - P } := by
  simp only [get_metrics, get_documents, Store.getColl_client,
    Store.getColl_project, Store.getColl_timelog, Store.getColl_invoice,
    Store.getColl_payment, filter_matches_nil, hH, hI, hP]

/-- A concrete store for the metrics witness: one client, invoices of 600
and 400, a payment of 400. -/
def storeC1 : Store :=
  ⟨[[("name", Value.vstr "Acme"), ("_id", Value.oid 0)]], [], [],
   [[("client_id", Value.vstr "c"), ("amount", Value.vnum 600), ("_id", Value.oid 1)],
    [("client_id", Value.vstr "c"), ("amount", Value.vnum 400), ("_id", Value.oid 2)]],
   [[("amount", Value.vnum 400), ("_id", Value.oid 3)]], 4⟩

/-- Witness for C1: with invoices summing to 1000 and payments summing to
400, the metrics response reports outstanding 600. -/
theorem metrics_totals_witness :
    sumField storeC1.timelog "hours" = .ok 0
    ∧ sumField storeC1.invoice "amount" = .ok 1000
    ∧ sumField storeC1.payment "amount" = .ok 400
    ∧ (get_metrics storeC1).fst
      = .ok { clients := 1, projects := 0, total_hours := 0,
              invoice_total := 1000, payment_total := 400,
              outstanding := 600 } := by
  have hI : sumField storeC1.invoice "amount" = .ok 1000 := by
    rw [show sumField storeC1.invoice "amount"
          = Except.ok ((600 : Rat) + (400 + 0)) from rfl]
    norm_num
  have hP : sumField storeC1.payment "amount" = .ok 400 := by
    rw [show sumField storeC1.payment "amount"
          = Except.ok ((400 : Rat) + 0) from rfl]
    norm_num
  refine ⟨rfl, hI, hP, ?_⟩
  rw [metrics_totals storeC1 0 1000 400 rfl hI hP]
  rw [show (1000 : Rat) - 400 = 600 from by norm_num]
  rfl

/-- Claim C6: a record lacking the summed numeric field contributes zero
to the corresponding metrics total (the `.get(k, 0)` default). -/
theorem missing_field_contributes_zero (d : Doc) (rest : List Doc)
    (k : String) (h : Doc.get d k = none) :
    sumField (d :: rest) k = sumField rest k := by
  simp only [sumField, h, Option.getD, pyFloat]
  cases hs : sumField rest k with
  | error e => rfl
  | ok t => simp

/-- Witness for C6: a document with no "amount" field leaves the amount
sum over the remaining documents unchanged. -/
theorem missing_field_contributes_zero_witness :
    Doc.get [("notes", Value.vstr "x")] "amount" = none
    ∧ sumField ([("notes", Value.vstr "x")] :: [[("amount", Value.vnum 5)]])
        "amount"
      = sumField [[("amount", Value.vnum 5)]] "amount" :=
  ⟨rfl, missing_field_contributes_zero _ _ _ rfl⟩

/-- Claim C7: on every kind's list endpoint, every returned record carries
a string `id` field and no raw `_id` field. -/
theorem list_responses_hide_raw_id (s : Store) (a b : Option String) :
    (∀ out, (list_clients s).fst = .ok out → ∀ i ∈ out,
        Doc.get i "_id" = none ∧ ∃ sv, Doc.get i "id" = some (Value.vstr sv))
    ∧ (∀ out, (list_projects a s).fst = .ok out → ∀ i ∈ out,
        Doc.get i "_id" = none ∧ ∃ sv, Doc.get i "id" = some (Value.vstr sv))
    ∧ (∀ out, (list_timelogs a b s).fst = .ok out → ∀ i ∈ out,
        Doc.get i "_id" = none ∧ ∃ sv, Doc.get i "id" = some (Value.vstr sv))
    ∧ (∀ out, (list_invoices a b s).fst = .ok out → ∀ i ∈ out,
        Doc.get i "_id" = none ∧ ∃ sv, Doc.get i "id" = some (Value.vstr sv))
    ∧ (∀ out, (list_payments a b s).fst = .ok out → ∀ i ∈ out,
        Doc.get i "_id" = none ∧ ∃ sv, Doc.get i "id" = some (Value.vstr sv)) := by
  refine ⟨fun out h i hi => ?_, fun out h i hi => ?_, fun out h i hi => ?_,
    fun out h i hi => ?_, fun out h i hi => ?_⟩ <;>
  · obtain ⟨d, hd⟩ := renameAll_mem h i hi
    exact renameId_shape hd

/-- A one-client store for the C7 witness. -/
def storeC7 : Store :=
  ⟨[[("name", Value.vstr "Acme"), ("_id", Value.oid 7)]], [], [], [], [], 8⟩

/-- Witness for C7: listing the clients of a concrete store yields the
record with the identifier renamed to `id`, and the theorem applies to
that concrete result. -/
theorem list_responses_hide_raw_id_witness :
    (list_clients storeC7).fst
      = .ok [[("name", Value.vstr "Acme"), ("id", Value.vstr "7")]]
    ∧ ∀ i ∈ [[("name", Value.vstr "Acme"), ("id", Value.vstr "7")]],
        Doc.get i "_id" = none ∧ ∃ sv, Doc.get i "id" = some (Value.vstr sv) :=
  ⟨rfl, (list_responses_hide_raw_id storeC7 none none).1 _ rfl⟩

/-- Claim C8: for a non-empty `client_id=X` query, GET `/api/projects`
returns exactly the stored projects whose `client_id` equals `X` (renamed
for output), and the empty array when none match. -/
theorem projects_filtered_by_client_id (s : Store) (X : String)
    (hX : X ≠ "") :
    (list_projects (some X) s).fst
      = renameAll (s.project.filter
          (fun d => Doc.get d "client_id" == some (Value.vstr X)))
    ∧ ((∀ d ∈ s.project, ¬ Doc.get d "client_id" = some (Value.vstr X)) →
        (list_projects (some X) s).fst = .ok []) := by
  have hXb : (X == "") = false := beq_eq_false_iff_ne.mpr hX
  constructor
  · simp only [list_projects, hXb, Bool.false_eq_true, if_false,
      get_documents, Store.getColl_project]
    congr 1
    apply List.filter_congr
    intro d _
    simp [matchesFilter]
  · intro hnone
    simp only [list_projects, hXb, Bool.false_eq_true, if_false,
      get_documents, Store.getColl_project]
    have hfil : s.project.filter
        (fun d => matchesFilter d [("client_id", Value.vstr X)]) = [] := by
      apply List.filter_eq_nil_iff.mpr
      intro d hd
      simp [matchesFilter]
      exact hnone d hd
    rw [hfil]
    rfl

/-- A two-project store for the C8 witness: one project of client c1, one
of client c2. -/
def storeC8 : Store :=
  ⟨[],
   [[("name", Value.vstr "A"), ("client_id", Value.vstr "c1"), ("_id", Value.oid 0)],
    [("name", Value.vstr "B"), ("client_id", Value.vstr "c2"), ("_id", Value.oid 1)]],
   [], [], [], 2⟩

/-- Witness for C8: filtering the concrete store by client c1 returns
exactly the matching project, and the no-match implication holds there. -/
theorem projects_filtered_by_client_id_witness :
    ("c1" ≠ "")
    ∧ ((list_projects (some "c1") storeC8).fst
        = renameAll (storeC8.project.filter
            (fun d => Doc.get d "client_id" == some (Value.vstr "c1")))
      ∧ ((∀ d ∈ storeC8.project,
            ¬ Doc.get d "client_id" = some (Value.vstr "c1")) →
          (list_projects (some "c1") storeC8).fst = .ok [])) :=
  ⟨by decide, projects_filtered_by_client_id storeC8 "c1" (by decide)⟩

/-- Claim C9: every list endpoint leaves the store unchanged, so a second
identical call on the resulting store returns the same result set. -/
theorem lists_idempotent_and_pure (s : Store) (a b : Option String) :
    ((list_clients s).snd = s
      ∧ (list_clients (list_clients s).snd).fst = (list_clients s).fst)
    ∧ ((list_projects a s).snd = s
      ∧ (list_projects a (list_projects a s).snd).fst
        = (list_projects a s).fst)
    ∧ ((list_timelogs a b s).snd = s
      ∧ (list_timelogs a b (list_timelogs a b s).snd).fst
        = (list_timelogs a b s).fst)
    ∧ ((list_invoices a b s).snd = s
      ∧ (list_invoices a b (list_invoices a b s).snd).fst
        = (list_invoices a b s).fst)
    ∧ ((list_payments a b s).snd = s
      ∧ (list_payments a b (list_payments a b s).snd).fst
        = (list_payments a b s).fst) :=
  ⟨⟨rfl, rfl⟩, ⟨rfl, rfl⟩, ⟨rfl, rfl⟩, ⟨rfl, rfl⟩, ⟨rfl, rfl⟩⟩

/-- Claim C10: an empty-string filter parameter behaves exactly as an
omitted one on every filtering list endpoint; in particular
`/api/projects?client_id=` returns all projects. -/
theorem empty_filter_param_ignored (s : Store) (o : Option String) :
    (list_projects (some "") s = list_projects none s
      ∧ (list_projects (some "") s).fst = renameAll s.project)
    ∧ (list_timelogs (some "") o s = list_timelogs none o s
      ∧ list_timelogs o (some "") s = list_timelogs o none s)
    ∧ (list_invoices (some "") o s = list_invoices none o s
      ∧ list_invoices o (some "") s = list_invoices o none s)
    ∧ (list_payments (some "") o s = list_payments none o s
      ∧ list_payments o (some "") s = list_payments o none s) := by
  refine ⟨⟨rfl, ?_⟩, ⟨rfl, rfl⟩, ⟨rfl, rfl⟩, ⟨rfl, rfl⟩⟩
  show renameAll (List.filter (fun d => matchesFilter d []) s.project)
    = renameAll s.project
  rw [filter_matches_nil]

end Freelancer
